import Mathlib

/-!
Shallow embedding of `src/ground/camera/capture-continuous.cpp`.

The program is a single `main` that discovers a ZWO ASI camera, opens and
initializes it, configures ROI/exposure/gain, and then runs a capture loop:
trigger exposure, poll status every 10 ms, fetch the frame, write it to a
timestamped `.bin` file, and pace between captures in 100 ms slices, all
gated by a `keep_running` flag cleared by SIGINT/SIGTERM.

The embedding models the camera SDK and the signal flag as oracles: each
kind of SDK call reads its result from a per-call-count function in `Env`,
and each read of the volatile `keep_running` flag reads `Env.flag` at a
running read counter.  Execution produces a trace of `Event`s together with
the process exit code; loops are driven by fuel and return `none` when the
fuel runs out, so every theorem about a completed run quantifies over runs
that terminated by themselves.  C++ `double` values are modelled as exact
rationals; the `(long)` cast is truncation toward zero.
-/

namespace CaptureContinuous

set_option maxRecDepth 40000

/-- The four values of `ASI_EXPOSURE_STATUS` in the vendor SDK. -/
inductive ExpStatus
  | idle
  | working
  | success
  | failed
deriving DecidableEq, Repr

/-- The two control ids the program sets via `ASISetControlValue`. -/
inductive ControlKind
  | exposure
  | gain
deriving DecidableEq, Repr

/-- Broken-down local time, mirroring the `struct tm` fields the program
reads (`tm_year` is years since 1900, `tm_mon` is 0-based). -/
structure Tm where
  tm_year : Nat
  tm_mon : Nat
  tm_mday : Nat
  tm_hour : Nat
  tm_min : Nat
  tm_sec : Nat
deriving DecidableEq, Repr

/-- Observable actions of a run: SDK calls with their results, error
messages on stderr, sleeps, and file operations. -/
inductive Event
  | getPropertyCall (ok : Bool)
  | openCamera (ok : Bool)
  | initCamera (ok : Bool)
  | setROIFormat
  | setControl (k : ControlKind) (v : Int)
  | startExposure (ok : Bool)
  | pollStatus (s : ExpStatus)
  | pollSleep
  | fetchFrame (ok : Bool)
  | openFile (path : String) (ok : Bool)
  | writeFile (path : String) (bytes : Nat)
  | paceSleep
  | errorMsg (msg : String)
  | closeCamera
deriving DecidableEq, Repr

/-- The fields of `ASI_CAMERA_INFO` the program uses. -/
structure CamInfo where
  CameraID : Nat
  MaxWidth : Nat
  MaxHeight : Nat
  BitDepth : Nat
deriving DecidableEq, Repr

/-- Oracle for everything outside the program: SDK call results (indexed by
how many calls of that kind have happened), the wall clock sampled by
`gettimeofday`/`localtime` (a `Tm` plus `tv_usec`), and the value of the
volatile `keep_running` flag at each successive read. -/
structure Env where
  numCameras : Int
  propOk : Bool
  info : CamInfo
  openOk : Bool
  initOk : Bool
  startResults : Nat → Bool
  pollResults : Nat → ExpStatus
  fetchResults : Nat → Bool
  fileOpenResults : Nat → Bool
  times : Nat → Tm × Nat
  flag : Nat → Bool

/-- The four configuration values produced by command-line parsing. -/
structure Config where
  output_dir : String
  exposure_seconds : Rat
  gain_value : Int
  interval_seconds : Rat
deriving DecidableEq, Repr

/-- The defaults declared at the top of `main`. -/
def defaultConfig : Config :=
  { output_dir := "."
    exposure_seconds := 1
    gain_value := 100
    interval_seconds := 3 / 2 }

/-- Command-line scan of `main`: each recognized flag consumes the next
token when one exists (`i + 1 < argc`), numeric values go through
`std::stod` / `std::stoi` whose parse failure propagates as an uncaught
exception (modelled as `Except.error`).  `stod` and `stoi` are passed in as
oracles for the C++ numeric parsers. -/
def parseArgs (stod : String → Option Rat) (stoi : String → Option Int) :
    List String → Config → Except Unit Config
  | [], c => Except.ok c
  | [_], c => Except.ok c
  | a :: v :: rest, c =>
    if a = "--output-dir" then
      parseArgs stod stoi rest { c with output_dir := v }
    else if a = "--exposure-time" then
      match stod v with
      | some q => parseArgs stod stoi rest { c with exposure_seconds := q }
      | none => Except.error ()
    else if a = "--gain" then
      match stoi v with
      | some n => parseArgs stod stoi rest { c with gain_value := n }
      | none => Except.error ()
    else if a = "--interval" then
      match stod v with
      | some q => parseArgs stod stoi rest { c with interval_seconds := q }
      | none => Except.error ()
    else
      parseArgs stod stoi (v :: rest) c

/-- The flags `main` recognizes. -/
def recognizedFlags : List String :=
  ["--output-dir", "--exposure-time", "--gain", "--interval"]

/-- Model of `std::setw(2)` with fill `'0'`: pad a decimal rendering to two digits
(wider numbers print unpadded). -/
def pad2 (n : Nat) : String :=
  if n < 10 then "0" ++ Nat.repr n else Nat.repr n

/-- Model of `std::setw(3)` with fill `'0'`: pad a decimal rendering to three digits. -/
def pad3 (n : Nat) : String :=
  if n < 10 then "00" ++ Nat.repr n
  else if n < 100 then "0" ++ Nat.repr n
  else Nat.repr n

/-- The source's `make_filename_from_time`, as a function of the sampled clock reading:
the `localtime` decomposition `t` of `tv.tv_sec` and the microsecond part
`usec` of the same `gettimeofday` sample. -/
def make_filename_from_time (t : Tm) (usec : Nat) : String :=
  "exposure-" ++ Nat.repr (1900 + t.tm_year)
    ++ pad2 (1 + t.tm_mon)
    ++ pad2 t.tm_mday ++ "-"
    ++ pad2 t.tm_hour
    ++ pad2 t.tm_min
    ++ pad2 t.tm_sec ++ "-"
    ++ pad3 (usec / 1000)
    ++ ".bin"

/-- C++ `(long)` cast of a `double`: truncation toward zero (exact-rational
model of the double; `Int.tdiv` of the reduced numerator by the positive
denominator truncates toward zero). -/
def ratTrunc (q : Rat) : Int :=
  Int.tdiv q.num q.den

/-- The value passed to `ASISetControlValue(.., ASI_EXPOSURE, ..)`:
`(long)(exposure_seconds * 1e6)`. -/
def exposureMicros (sec : Rat) : Int :=
  ratTrunc (sec * 1000000)

/-- Read counters for each oracle in `Env`, threaded through the run. -/
structure Counters where
  nStart : Nat
  nPoll : Nat
  nFetch : Nat
  nOpen : Nat
  nTime : Nat
  nFlag : Nat
deriving DecidableEq, Repr

/-- All counters at zero: the state at `main` entry. -/
def initCounters : Counters := ⟨0, 0, 0, 0, 0, 0⟩

/-- How one execution of the loop body ends: `brk` for C++ `break`
(the loop terminates), `cont` for `continue` or normal fall-through
(control returns to the `while (keep_running)` guard). -/
inductive IterOutcome
  | brk
  | cont
deriving DecidableEq, Repr

/-- Result of one execution of the loop body. -/
structure IterResult where
  events : List Event
  outcome : IterOutcome
  counters : Counters
deriving DecidableEq, Repr

/-- The status-polling do-while:
`do { ASIGetExpStatus(..); sleep(10ms); } while (status == WORKING && keep_running)`.
The status is read first each round; `keep_running` is read only when the
status is `working` (C++ `&&` short-circuit).  Returns the events, the last
status read, and the updated counters. -/
def pollLoop (env : Env) : Nat → Counters → Option (List Event × ExpStatus × Counters)
  | 0, _ => none
  | fuel + 1, c =>
    let s := env.pollResults c.nPoll
    let c₁ : Counters := { c with nPoll := c.nPoll + 1 }
    if s = ExpStatus.working then
      let b := env.flag c₁.nFlag
      let c₂ : Counters := { c₁ with nFlag := c₁.nFlag + 1 }
      if b then
        match pollLoop env fuel c₂ with
        | some (evs, st, c₃) =>
          some (Event.pollStatus s :: Event.pollSleep :: evs, st, c₃)
        | none => none
      else
        some ([Event.pollStatus s, Event.pollSleep], s, c₂)
    else
      some ([Event.pollStatus s, Event.pollSleep], s, c₁)

/-- The pacing wait:
`double waited = 0.0; while (waited < interval_seconds && keep_running) { sleep(100ms); waited += 0.1; }`.
`keep_running` is read only when `waited < interval_seconds` holds (C++ `&&`
short-circuit); `waited` accumulates exact tenths in the rational model. -/
def paceLoop (env : Env) (interval : Rat) : Nat → Rat → Counters → Option (List Event × Counters)
  | 0, _, _ => none
  | fuel + 1, waited, c =>
    if waited < interval then
      let b := env.flag c.nFlag
      let c₁ : Counters := { c with nFlag := c.nFlag + 1 }
      if b then
        match paceLoop env interval fuel (waited + 1 / 10) c₁ with
        | some (evs, c₂) => some (Event.paceSleep :: evs, c₂)
        | none => none
      else
        some ([], c₁)
    else
      some ([], c)

/-- The loop body from `if (!keep_running) break;` onward: the fresh
`keep_running` read, the status check, the fetch, filename generation,
file open, full-buffer write, and the pacing wait.  `imgSize` is
`image_size = width * height * bytes_per_pixel` fixed at session setup. -/
def afterPoll (env : Env) (cfg : Config) (imgSize : Nat) (fuel : Nat)
    (st : ExpStatus) (c : Counters) : Option IterResult :=
  let b := env.flag c.nFlag
  let c₁ : Counters := { c with nFlag := c.nFlag + 1 }
  if b = false then
    some ⟨[], IterOutcome.brk, c₁⟩
  else if st ≠ ExpStatus.success then
    some ⟨[Event.errorMsg "Exposure failed, skipping frame"], IterOutcome.cont, c₁⟩
  else
    let fOk := env.fetchResults c₁.nFetch
    let c₂ : Counters := { c₁ with nFetch := c₁.nFetch + 1 }
    if fOk = false then
      some ⟨[Event.fetchFrame false, Event.errorMsg "Error retrieving image data"],
        IterOutcome.cont, c₂⟩
    else
      let t := env.times c₂.nTime
      let c₃ : Counters := { c₂ with nTime := c₂.nTime + 1 }
      let path := cfg.output_dir ++ "/" ++ make_filename_from_time t.1 t.2
      let oOk := env.fileOpenResults c₃.nOpen
      let c₄ : Counters := { c₃ with nOpen := c₃.nOpen + 1 }
      if oOk = false then
        some ⟨[Event.fetchFrame true, Event.openFile path false,
          Event.errorMsg ("Error opening file for writing: " ++ path)],
          IterOutcome.cont, c₄⟩
      else
        match paceLoop env cfg.interval_seconds fuel 0 c₄ with
        | some (pevs, c₅) =>
          some ⟨Event.fetchFrame true :: Event.openFile path true ::
            Event.writeFile path imgSize :: pevs, IterOutcome.cont, c₅⟩
        | none => none

/-- One execution of the loop body, entered after the `while (keep_running)`
guard passed: trigger the exposure (a failure reports, then `break`s), poll
to completion, and hand over to `afterPoll`. -/
def iterationStep (env : Env) (cfg : Config) (imgSize : Nat) (fuel : Nat)
    (c : Counters) : Option IterResult :=
  let sOk := env.startResults c.nStart
  let c₁ : Counters := { c with nStart := c.nStart + 1 }
  if sOk = false then
    some ⟨[Event.startExposure false, Event.errorMsg "Error starting exposure"],
      IterOutcome.brk, c₁⟩
  else
    match pollLoop env fuel c₁ with
    | some (pevs, st, c₂) =>
      match afterPoll env cfg imgSize fuel st c₂ with
      | some r => some ⟨Event.startExposure true :: pevs ++ r.events, r.outcome, r.counters⟩
      | none => none
    | none => none

/-- The `while (keep_running)` loop: read the flag, run the body, and
repeat on `cont`, stop on `brk` or a false guard. -/
def captureLoop (env : Env) (cfg : Config) (imgSize : Nat) :
    Nat → Counters → Option (List Event × Counters)
  | 0, _ => none
  | fuel + 1, c =>
    let b := env.flag c.nFlag
    let c₁ : Counters := { c with nFlag := c.nFlag + 1 }
    if b then
      match iterationStep env cfg imgSize fuel c₁ with
      | some r =>
        match r.outcome with
        | IterOutcome.brk => some (r.events, r.counters)
        | IterOutcome.cont =>
          match captureLoop env cfg imgSize fuel r.counters with
          | some (evs, c₂) => some (r.events ++ evs, c₂)
          | none => none
      | none => none
    else
      some ([], c₁)

/-- Whole-process model of `main` after argument parsing: device discovery,
property query, derived frame geometry, open/init (`&&` short-circuit: init
is not attempted when open fails), session configuration, the capture loop,
and the final `ASICloseCamera`.  Returns the event trace and the exit code. -/
def mainRun (env : Env) (cfg : Config) (fuel : Nat) : Option (List Event × Int) :=
  if env.numCameras < 1 then
    some ([Event.errorMsg "No cameras connected!"], 1)
  else if env.propOk = false then
    some ([Event.getPropertyCall false, Event.errorMsg "Error retrieving camera properties!"], 1)
  else
    let width := env.info.MaxWidth
    let height := env.info.MaxHeight
    let bpp : Nat := if 8 < env.info.BitDepth then 2 else 1
    let imgSize := width * height * bpp
    if env.openOk = false then
      some ([Event.getPropertyCall true, Event.openCamera false,
        Event.errorMsg "Error initializing camera"], 1)
    else if env.initOk = false then
      some ([Event.getPropertyCall true, Event.openCamera true, Event.initCamera false,
        Event.errorMsg "Error initializing camera"], 1)
    else
      let pre := [Event.getPropertyCall true, Event.openCamera true, Event.initCamera true,
        Event.setROIFormat,
        Event.setControl ControlKind.exposure (exposureMicros cfg.exposure_seconds),
        Event.setControl ControlKind.gain cfg.gain_value]
      match captureLoop env cfg imgSize fuel initCounters with
      | some (evs, _) => some (pre ++ evs ++ [Event.closeCamera], 0)
      | none => none

/-- Count of `closeCamera` events in a trace. -/
def countClose (evs : List Event) : Nat :=
  evs.countP fun e => decide (e = Event.closeCamera)

/-- Checks that every `startExposure` event that follows an earlier
`startExposure` event has at least one `paceSleep` between the two:
"the pacing wait occurs before the next exposure is triggered". -/
def pacedCheck : Bool → Bool → List Event → Bool
  | _, _, [] => true
  | seen, paced, e :: rest =>
    match e with
    | Event.startExposure _ =>
      if seen && !paced then false else pacedCheck true false rest
    | Event.paceSleep => pacedCheck seen true rest
    | _ => pacedCheck seen paced rest

/-- Entry point for `pacedCheck`. -/
def pacedBetweenStarts (evs : List Event) : Bool :=
  pacedCheck false false evs

/-! Concrete environments used to evaluate the model on specific runs. -/

/-- A 4x3 sensor with 16-bit depth: `bytes_per_pixel = 2`, `image_size = 24`. -/
def okInfo : CamInfo := ⟨0, 4, 3, 16⟩

/-- Everything succeeds; the exposure completes on the first poll; the
shutdown flag is set after two reads, so exactly one frame is captured. -/
def envAllOk : Env :=
  { numCameras := 1
    propOk := true
    info := okInfo
    openOk := true
    initOk := true
    startResults := fun _ => true
    pollResults := fun _ => ExpStatus.success
    fetchResults := fun _ => true
    fileOpenResults := fun _ => true
    times := fun _ => (⟨125, 9, 11, 14, 30, 59⟩, 7999)
    flag := fun n => decide (n < 2) }

/-- Exposures terminate with `ASI_EXP_FAILED`; shutdown after three flag reads. -/
def envPollFailed : Env :=
  { envAllOk with pollResults := fun _ => ExpStatus.failed, flag := fun n => decide (n < 3) }

/-- Environment where `ASIOpenCamera` succeeds but `ASIInitCamera` fails. -/
def envInitFail : Env :=
  { envAllOk with initOk := false }

/-- Environment where `ASIGetNumOfConnectedCameras` reports zero cameras. -/
def envNoCameras : Env :=
  { envAllOk with numCameras := 0 }

/-- The first `ASIStartExposure` fails. -/
def envStartFail : Env :=
  { envAllOk with startResults := fun _ => false, flag := fun n => decide (n < 1) }

/-- Everything succeeds and the shutdown flag is never set. -/
def envNoShutdown : Env :=
  { envAllOk with flag := fun _ => true }

/-- The exposure never completes; the shutdown flag is set during polling. -/
def envShutdownWhilePolling : Env :=
  { envAllOk with pollResults := fun _ => ExpStatus.working }

/-- The second poll reports success, but the shutdown flag is already set
by the time the post-polling check runs. -/
def envSuccessAtShutdown : Env :=
  { envAllOk with
      pollResults := fun n => if n = 0 then ExpStatus.working else ExpStatus.success }

/-- Configuration with a short pacing interval (two 100 ms slices). -/
def cfgShort : Config :=
  { defaultConfig with interval_seconds := 1 / 5 }

/-- The trace of `mainRun envPollFailed defaultConfig 10`: one abandoned
iteration (exposure failed) followed immediately by a second trigger, then
shutdown during the second iteration's post-poll check. -/
def abandonedIterTrace : List Event :=
  [Event.getPropertyCall true, Event.openCamera true, Event.initCamera true,
   Event.setROIFormat,
   Event.setControl ControlKind.exposure 1000000,
   Event.setControl ControlKind.gain 100,
   Event.startExposure true,
   Event.pollStatus ExpStatus.failed, Event.pollSleep,
   Event.errorMsg "Exposure failed, skipping frame",
   Event.startExposure true,
   Event.pollStatus ExpStatus.failed, Event.pollSleep,
   Event.closeCamera]

/-- The trace of `mainRun envInitFail defaultConfig 1`: the device is
opened, init fails, and the process exits without a `closeCamera` call. -/
def initFailTrace : List Event :=
  [Event.getPropertyCall true, Event.openCamera true, Event.initCamera false,
   Event.errorMsg "Error initializing camera"]

/-- Decimal value of a digit string (used to invert the padded renderings). -/
def decDigits (s : String) : Nat :=
  s.data.foldl (fun a ch => a * 10 + (ch.toNat - 48)) 0

/-- The filename up to and including the second `-`: everything before the
millisecond field. -/
def filenameStem (t : Tm) : String :=
  "exposure-" ++ Nat.repr (1900 + t.tm_year)
    ++ pad2 (1 + t.tm_mon)
    ++ pad2 t.tm_mday ++ "-"
    ++ pad2 t.tm_hour
    ++ pad2 t.tm_min
    ++ pad2 t.tm_sec ++ "-"

/-! ### Helper lemmas about the loop interpreters -/

/-- Every event emitted by the pacing wait is a `paceSleep`. -/
lemma paceLoop_events (env : Env) (interval : Rat) :
    ∀ (fuel : Nat) (w : Rat) (c : Counters) (evs : List Event) (c₂ : Counters),
      paceLoop env interval fuel w c = some (evs, c₂) →
      ∀ e ∈ evs, e = Event.paceSleep := by
  intro fuel
  induction fuel with
  | zero => intro w c evs c₂ h; simp [paceLoop] at h
  | succ n ih =>
    intro w c evs c₂ h e he
    simp only [paceLoop] at h
    split at h
    · split at h
      · cases hrec : paceLoop env interval n (w + 1 / 10)
            { c with nFlag := c.nFlag + 1 } with
        | none => rw [hrec] at h; simp at h
        | some p =>
          rw [hrec] at h
          simp only [Option.some.injEq, Prod.mk.injEq] at h
          obtain ⟨h1, h2⟩ := h
          subst h1
          rcases List.mem_cons.mp he with h' | h'
          · exact h'
          · exact ih _ _ _ _ hrec e h'
      · simp only [Option.some.injEq, Prod.mk.injEq] at h
        obtain ⟨h1, _⟩ := h
        subst h1
        simp at he
    · simp only [Option.some.injEq, Prod.mk.injEq] at h
      obtain ⟨h1, _⟩ := h
      subst h1
      simp at he

/-- Every event emitted by the status-polling loop is a `pollStatus` or a
`pollSleep`. -/
lemma pollLoop_events (env : Env) :
    ∀ (fuel : Nat) (c : Counters) (pevs : List Event) (st : ExpStatus) (c₂ : Counters),
      pollLoop env fuel c = some (pevs, st, c₂) →
      ∀ e ∈ pevs, e = Event.pollSleep ∨ ∃ s, e = Event.pollStatus s := by
  intro fuel
  induction fuel with
  | zero => intro c pevs st c₂ h; simp [pollLoop] at h
  | succ n ih =>
    intro c pevs st c₂ h e he
    simp only [pollLoop] at h
    split at h
    · split at h
      · cases hrec : pollLoop env n
            { c with nPoll := c.nPoll + 1, nFlag := c.nFlag + 1 } with
        | none => rw [hrec] at h; simp at h
        | some p =>
          obtain ⟨evs', st', c₃⟩ := p
          rw [hrec] at h
          simp only [Option.some.injEq, Prod.mk.injEq] at h
          obtain ⟨h1, _, _⟩ := h
          subst h1
          rcases List.mem_cons.mp he with h' | h'
          · exact Or.inr ⟨_, h'⟩
          · rcases List.mem_cons.mp h' with h'' | h''
            · exact Or.inl h''
            · exact ih _ _ _ _ hrec e h''
      · simp only [Option.some.injEq, Prod.mk.injEq] at h
        obtain ⟨h1, _, _⟩ := h
        subst h1
        rcases List.mem_cons.mp he with h' | h'
        · exact Or.inr ⟨_, h'⟩
        · simp at h'
          subst h'
          exact Or.inl rfl
    · simp only [Option.some.injEq, Prod.mk.injEq] at h
      obtain ⟨h1, _, _⟩ := h
      subst h1
      rcases List.mem_cons.mp he with h' | h'
      · exact Or.inr ⟨_, h'⟩
      · simp at h'
        subst h'
        exact Or.inl rfl

/-- Event invariant of the loop body tail: it never emits a `closeCamera`,
and every `writeFile` it emits carries exactly `imgSize` bytes. -/
lemma afterPoll_events (env : Env) (cfg : Config) (imgSize fuel : Nat)
    (st : ExpStatus) (c : Counters) (r : IterResult)
    (h : afterPoll env cfg imgSize fuel st c = some r) :
    ∀ e ∈ r.events, e ≠ Event.closeCamera ∧
      ∀ p n, e = Event.writeFile p n → n = imgSize := by
  intro e he
  simp only [afterPoll] at h
  split at h
  · simp only [Option.some.injEq] at h
    subst h
    simp at he
  · split at h
    · simp only [Option.some.injEq] at h
      subst h
      simp at he
      subst he
      exact ⟨by simp, by simp⟩
    · split at h
      · simp only [Option.some.injEq] at h
        subst h
        simp at he
        rcases he with he | he <;> subst he <;> exact ⟨by simp, by simp⟩
      · split at h
        · simp only [Option.some.injEq] at h
          subst h
          simp at he
          rcases he with he | he | he <;> subst he <;> exact ⟨by simp, by simp⟩
        · split at h
          · next pevs c₅ hrec =>
            simp only [Option.some.injEq] at h
            subst h
            simp only [List.mem_cons] at he
            rcases he with he | he | he | he
            · subst he; exact ⟨by simp, by simp⟩
            · subst he; exact ⟨by simp, by simp⟩
            · subst he
              refine ⟨by simp, ?_⟩
              intro p n hpn
              simp only [Event.writeFile.injEq] at hpn
              exact hpn.2.symm
            · have := paceLoop_events env cfg.interval_seconds fuel 0 _ _ _ hrec e he
              subst this
              exact ⟨by simp, by simp⟩
          · exact absurd h (by simp)

/-- Event invariant of one loop body execution: no `closeCamera`, and every
`writeFile` carries exactly `imgSize` bytes. -/
lemma iterationStep_events (env : Env) (cfg : Config) (imgSize fuel : Nat)
    (c : Counters) (r : IterResult)
    (h : iterationStep env cfg imgSize fuel c = some r) :
    ∀ e ∈ r.events, e ≠ Event.closeCamera ∧
      ∀ p n, e = Event.writeFile p n → n = imgSize := by
  intro e he
  simp only [iterationStep] at h
  split at h
  · simp only [Option.some.injEq] at h
    subst h
    simp at he
    rcases he with he | he <;> subst he <;> exact ⟨by simp, by simp⟩
  · cases hpoll : pollLoop env fuel { c with nStart := c.nStart + 1 } with
    | none => rw [hpoll] at h; simp at h
    | some p =>
      obtain ⟨pevs, st, c₂⟩ := p
      rw [hpoll] at h
      simp only at h
      cases hap : afterPoll env cfg imgSize fuel st c₂ with
      | none => rw [hap] at h; simp at h
      | some r' =>
        rw [hap] at h
        simp only [Option.some.injEq] at h
        subst h
        have he' : e = Event.startExposure true ∨ e ∈ pevs ∨ e ∈ r'.events := by
          simpa using he
        rcases he' with he' | he' | he'
        · subst he'; exact ⟨by simp, by simp⟩
        · rcases pollLoop_events env fuel _ _ _ _ hpoll e he' with h' | ⟨s, h'⟩ <;>
            subst h' <;> exact ⟨by simp, by simp⟩
        · exact afterPoll_events env cfg imgSize fuel st c₂ r' hap e he'

/-- Event invariant of the whole capture loop: no `closeCamera`, and every
`writeFile` carries exactly `imgSize` bytes. -/
lemma captureLoop_events (env : Env) (cfg : Config) (imgSize : Nat) :
    ∀ (fuel : Nat) (c : Counters) (evs : List Event) (c₂ : Counters),
      captureLoop env cfg imgSize fuel c = some (evs, c₂) →
      ∀ e ∈ evs, e ≠ Event.closeCamera ∧
        ∀ p n, e = Event.writeFile p n → n = imgSize := by
  intro fuel
  induction fuel with
  | zero => intro c evs c₂ h; simp [captureLoop] at h
  | succ n ih =>
    intro c evs c₂ h e he
    simp only [captureLoop] at h
    split at h
    · cases hit : iterationStep env cfg imgSize n { c with nFlag := c.nFlag + 1 } with
      | none => rw [hit] at h; simp at h
      | some r =>
        rw [hit] at h
        simp only at h
        cases hout : r.outcome with
        | brk =>
          rw [hout] at h
          simp only [Option.some.injEq, Prod.mk.injEq] at h
          obtain ⟨h1, _⟩ := h
          subst h1
          exact iterationStep_events env cfg imgSize n _ r hit e he
        | cont =>
          rw [hout] at h
          cases hrec : captureLoop env cfg imgSize n r.counters with
          | none => rw [hrec] at h; simp at h
          | some p =>
            obtain ⟨evs', c₃⟩ := p
            rw [hrec] at h
            simp only [Option.some.injEq, Prod.mk.injEq] at h
            obtain ⟨h1, _⟩ := h
            subst h1
            rcases List.mem_append.mp he with h' | h'
            · exact iterationStep_events env cfg imgSize n _ r hit e h'
            · exact ih _ _ _ hrec e h'
    · simp only [Option.some.injEq, Prod.mk.injEq] at h
      obtain ⟨h1, _⟩ := h
      subst h1
      simp at he

/-- When the configured interval is positive and the flag is still up at the
first check, a completed pacing wait emits at least one 100 ms sleep. -/
lemma paceLoop_emits (env : Env) (interval : Rat) (fuel : Nat) (c : Counters)
    (evs : List Event) (c₂ : Counters)
    (h : paceLoop env interval fuel 0 c = some (evs, c₂))
    (hi : 0 < interval) (hb : env.flag c.nFlag = true) :
    Event.paceSleep ∈ evs := by
  cases fuel with
  | zero => simp [paceLoop] at h
  | succ n =>
    simp only [paceLoop] at h
    rw [if_pos hi] at h
    simp only [hb, if_true] at h
    split at h
    · next evs' c₃ hrec =>
      simp only [Option.some.injEq, Prod.mk.injEq] at h
      obtain ⟨h1, _⟩ := h
      subst h1
      exact List.mem_cons_self _ _
    · exact absurd h (by simp)

/-! ### Claim theorems -/

/-- C8: for every configured exposure duration ≥ 0 seconds, the value the
program passes to the sensor's exposure control — `exposureMicros`, the
exact-rational model of `(long)(exposure_seconds * 1e6)` used by `mainRun`
— is the duration in whole microseconds truncated toward the integer
microsecond, and is never negative. -/
theorem exposure_micros_truncated_nonneg (sec : Rat) (h : 0 ≤ sec) :
    exposureMicros sec = ⌊sec * 1000000⌋ ∧ 0 ≤ exposureMicros sec := by
  have hprod : (0 : Rat) ≤ sec * 1000000 := by positivity
  have heq : exposureMicros sec = ⌊sec * 1000000⌋ := by
    unfold exposureMicros ratTrunc
    rw [Rat.floor_def, Int.tdiv_eq_ediv (Rat.num_nonneg.mpr hprod) (by positivity)]
  refine ⟨heq, ?_⟩
  rw [heq]
  exact Int.floor_nonneg.mpr hprod

/-- Witness for C8 at `sec = 3/2`: the control value is 1500000. -/
theorem exposure_micros_truncated_nonneg_witness :
    (0 : Rat) ≤ 3 / 2 ∧
      (exposureMicros (3 / 2) = ⌊(3 / 2 : Rat) * 1000000⌋ ∧ 0 ≤ exposureMicros (3 / 2)) :=
  ⟨by norm_num, exposure_micros_truncated_nonneg (3 / 2) (by norm_num)⟩

/-- C10: in the command-line scan, a recognized flag appearing as the final
argument with no following value is silently ignored (the configuration,
in particular the defaults, is unchanged), and when a flag appears twice
the value of its last occurrence is the one kept.  `stod` and `stoi` stand
for the C++ numeric parsers. -/
theorem cli_trailing_flag_and_last_occurrence
    (stod : String → Option Rat) (stoi : String → Option Int) :
    (∀ f ∈ recognizedFlags, parseArgs stod stoi [f] defaultConfig =
        Except.ok defaultConfig)
    ∧ (∀ d₁ d₂ c, parseArgs stod stoi ["--output-dir", d₁, "--output-dir", d₂] c =
        Except.ok { c with output_dir := d₂ })
    ∧ (∀ v₁ v₂ q₁ q₂ c, stod v₁ = some q₁ → stod v₂ = some q₂ →
        parseArgs stod stoi ["--exposure-time", v₁, "--exposure-time", v₂] c =
          Except.ok { c with exposure_seconds := q₂ })
    ∧ (∀ v₁ v₂ n₁ n₂ c, stoi v₁ = some n₁ → stoi v₂ = some n₂ →
        parseArgs stod stoi ["--gain", v₁, "--gain", v₂] c =
          Except.ok { c with gain_value := n₂ })
    ∧ (∀ v₁ v₂ q₁ q₂ c, stod v₁ = some q₁ → stod v₂ = some q₂ →
        parseArgs stod stoi ["--interval", v₁, "--interval", v₂] c =
          Except.ok { c with interval_seconds := q₂ }) := by
  refine ⟨?_, ?_, ?_, ?_, ?_⟩
  · intro f _
    rfl
  · intro d₁ d₂ c
    by_cases hd : d₁ = "--output-dir" <;> simp [parseArgs, hd]
  · intro v₁ v₂ q₁ q₂ c h₁ h₂
    by_cases hv : v₁ = "--exposure-time"
    · subst hv; simp [parseArgs, h₁, h₂]
    · simp [parseArgs, hv, h₁, h₂]
  · intro v₁ v₂ n₁ n₂ c h₁ h₂
    by_cases hv : v₁ = "--gain"
    · subst hv; simp [parseArgs, h₁, h₂]
    · simp [parseArgs, hv, h₁, h₂]
  · intro v₁ v₂ q₁ q₂ c h₁ h₂
    by_cases hv : v₁ = "--interval"
    · subst hv; simp [parseArgs, h₁, h₂]
    · simp [parseArgs, hv, h₁, h₂]

/-- Witness for C10: a trailing `--gain` is ignored, and of two `--gain`
occurrences the last one wins. -/
theorem cli_trailing_flag_and_last_occurrence_witness :
    parseArgs (fun _ => some 2) (fun _ => some 5) ["--gain"] defaultConfig =
      Except.ok defaultConfig
    ∧ parseArgs (fun _ => some 2) (fun _ => some 5) ["--gain", "1", "--gain", "5"]
        defaultConfig = Except.ok { defaultConfig with gain_value := 5 } :=
  ⟨(cli_trailing_flag_and_last_occurrence (fun _ => some 2) (fun _ => some 5)).1
      "--gain" (by decide),
   (cli_trailing_flag_and_last_occurrence (fun _ => some 2) (fun _ => some 5)).2.2.2.1
      "1" "5" 5 5 defaultConfig rfl rfl⟩

/-- Shared core of C3 and C9: if the `keep_running` read performed right
after the polling loop (`if (!keep_running) break;`) returns false, the
loop body breaks with no fetch, no file open and no write, whatever the
last polled status was. -/
lemma iterationStep_brk_of_flag_false
    (env : Env) (cfg : Config) (imgSize fuel : Nat) (c : Counters)
    (pevs : List Event) (st : ExpStatus) (c₂ : Counters)
    (hstart : env.startResults c.nStart = true)
    (hpoll : pollLoop env fuel { c with nStart := c.nStart + 1 } = some (pevs, st, c₂))
    (hflag : env.flag c₂.nFlag = false) :
    iterationStep env cfg imgSize fuel c =
      some ⟨Event.startExposure true :: pevs, IterOutcome.brk,
        { c₂ with nFlag := c₂.nFlag + 1 }⟩
    ∧ (∀ b, Event.fetchFrame b ∉ Event.startExposure true :: pevs)
    ∧ (∀ p n, Event.writeFile p n ∉ Event.startExposure true :: pevs)
    ∧ (∀ p b, Event.openFile p b ∉ Event.startExposure true :: pevs) := by
  refine ⟨?_, ?_, ?_, ?_⟩
  · simp only [iterationStep, hstart, Bool.true_eq_false, if_false, hpoll]
    simp only [afterPoll, hflag, if_true]
    simp
  · intro b hmem
    rcases List.mem_cons.mp hmem with h' | h'
    · exact absurd h' (by simp)
    · rcases pollLoop_events env fuel _ _ _ _ hpoll _ h' with h'' | ⟨s, h''⟩ <;> simp at h''
  · intro p n hmem
    rcases List.mem_cons.mp hmem with h' | h'
    · exact absurd h' (by simp)
    · rcases pollLoop_events env fuel _ _ _ _ hpoll _ h' with h'' | ⟨s, h''⟩ <;> simp at h''
  · intro p b hmem
    rcases List.mem_cons.mp hmem with h' | h'
    · exact absurd h' (by simp)
    · rcases pollLoop_events env fuel _ _ _ _ hpoll _ h' with h'' | ⟨s, h''⟩ <;> simp at h''

/-- C3: if the Shutdown Flag becomes set while the exposure is being polled
(some flag read consumed before the post-polling check returned false, and
the flag never comes back once cleared), the iteration performs no fetch
and no file write, and the loop body breaks — the capture loop exits. -/
theorem shutdown_during_polling_aborts_iteration
    (env : Env) (cfg : Config) (imgSize fuel : Nat) (c : Counters)
    (pevs : List Event) (st : ExpStatus) (c₂ : Counters) (m : Nat)
    (hmono : ∀ i j : Nat, i ≤ j → env.flag i = false → env.flag j = false)
    (hstart : env.startResults c.nStart = true)
    (hpoll : pollLoop env fuel { c with nStart := c.nStart + 1 } = some (pevs, st, c₂))
    (hm : m < c₂.nFlag) (hf : env.flag m = false) :
    iterationStep env cfg imgSize fuel c =
      some ⟨Event.startExposure true :: pevs, IterOutcome.brk,
        { c₂ with nFlag := c₂.nFlag + 1 }⟩
    ∧ (∀ b, Event.fetchFrame b ∉ Event.startExposure true :: pevs)
    ∧ (∀ p n, Event.writeFile p n ∉ Event.startExposure true :: pevs) := by
  have hflag : env.flag c₂.nFlag = false := hmono m c₂.nFlag (Nat.le_of_lt hm) hf
  obtain ⟨h1, h2, h3, _⟩ :=
    iterationStep_brk_of_flag_false env cfg imgSize fuel c pevs st c₂ hstart hpoll hflag
  exact ⟨h1, h2, h3⟩

/-- Witness for C3: the exposure never completes, the flag clears at read
index 2 during polling, and the loop body breaks with only poll events. -/
theorem shutdown_during_polling_aborts_iteration_witness :
    iterationStep envShutdownWhilePolling defaultConfig 24 5 ⟨0, 0, 0, 0, 0, 1⟩ =
      some ⟨[Event.startExposure true,
        Event.pollStatus ExpStatus.working, Event.pollSleep,
        Event.pollStatus ExpStatus.working, Event.pollSleep], IterOutcome.brk,
        ⟨1, 2, 0, 0, 0, 4⟩⟩
    ∧ (∀ b, Event.fetchFrame b ∉ [Event.startExposure true,
        Event.pollStatus ExpStatus.working, Event.pollSleep,
        Event.pollStatus ExpStatus.working, Event.pollSleep])
    ∧ (∀ p n, Event.writeFile p n ∉ [Event.startExposure true,
        Event.pollStatus ExpStatus.working, Event.pollSleep,
        Event.pollStatus ExpStatus.working, Event.pollSleep]) :=
  shutdown_during_polling_aborts_iteration envShutdownWhilePolling defaultConfig 24 5
    ⟨0, 0, 0, 0, 0, 1⟩
    [Event.pollStatus ExpStatus.working, Event.pollSleep,
      Event.pollStatus ExpStatus.working, Event.pollSleep]
    ExpStatus.working ⟨1, 2, 0, 0, 0, 3⟩ 2
    (by
      intro i j hij hi
      simp only [envShutdownWhilePolling, envAllOk] at hi ⊢
      simp only [decide_eq_false_iff_not, not_lt] at hi ⊢
      omega)
    rfl (by decide) (by decide) (by decide)

/-- C9: when the polling loop ends with the exposure reporting success but
the fresh `keep_running` read at `if (!keep_running) break;` returns false,
the shutdown check wins: the iteration is abandoned with no fetch and no
write, and the loop body breaks. -/
theorem shutdown_overrides_completed_exposure
    (env : Env) (cfg : Config) (imgSize fuel : Nat) (c : Counters)
    (pevs : List Event) (c₂ : Counters)
    (hstart : env.startResults c.nStart = true)
    (hpoll : pollLoop env fuel { c with nStart := c.nStart + 1 } =
      some (pevs, ExpStatus.success, c₂))
    (hflag : env.flag c₂.nFlag = false) :
    iterationStep env cfg imgSize fuel c =
      some ⟨Event.startExposure true :: pevs, IterOutcome.brk,
        { c₂ with nFlag := c₂.nFlag + 1 }⟩
    ∧ (∀ b, Event.fetchFrame b ∉ Event.startExposure true :: pevs)
    ∧ (∀ p n, Event.writeFile p n ∉ Event.startExposure true :: pevs)
    ∧ (∀ p b, Event.openFile p b ∉ Event.startExposure true :: pevs) :=
  iterationStep_brk_of_flag_false env cfg imgSize fuel c pevs ExpStatus.success c₂
    hstart hpoll hflag

/-- Witness for C9: the second poll reports success, the flag is already
clear at the post-polling check, and the iteration is still abandoned. -/
theorem shutdown_overrides_completed_exposure_witness :
    iterationStep envSuccessAtShutdown defaultConfig 24 5 ⟨0, 0, 0, 0, 0, 1⟩ =
      some ⟨[Event.startExposure true,
        Event.pollStatus ExpStatus.working, Event.pollSleep,
        Event.pollStatus ExpStatus.success, Event.pollSleep], IterOutcome.brk,
        ⟨1, 2, 0, 0, 0, 3⟩⟩
    ∧ (∀ b, Event.fetchFrame b ∉ [Event.startExposure true,
        Event.pollStatus ExpStatus.working, Event.pollSleep,
        Event.pollStatus ExpStatus.success, Event.pollSleep])
    ∧ (∀ p n, Event.writeFile p n ∉ [Event.startExposure true,
        Event.pollStatus ExpStatus.working, Event.pollSleep,
        Event.pollStatus ExpStatus.success, Event.pollSleep])
    ∧ (∀ p b, Event.openFile p b ∉ [Event.startExposure true,
        Event.pollStatus ExpStatus.working, Event.pollSleep,
        Event.pollStatus ExpStatus.success, Event.pollSleep]) :=
  shutdown_overrides_completed_exposure envSuccessAtShutdown defaultConfig 24 5
    ⟨0, 0, 0, 0, 0, 1⟩
    [Event.pollStatus ExpStatus.working, Event.pollSleep,
      Event.pollStatus ExpStatus.success, Event.pollSleep]
    ⟨1, 2, 0, 0, 0, 2⟩ rfl (by decide) (by decide)

/-- C4: when the first `ASIStartExposure` of a run fails (with startup all
successful and the flag still up at the loop guard), the failure is
reported on stderr, the loop breaks, the device is released exactly once,
and the process exits with code 0. -/
theorem start_failure_reported_break_release_exit_zero
    (env : Env) (cfg : Config) (fuel : Nat) (tr : List Event) (code : Int)
    (h1 : ¬ env.numCameras < 1) (h2 : env.propOk = true)
    (h3 : env.openOk = true) (h4 : env.initOk = true)
    (h5 : env.flag 0 = true) (h6 : env.startResults 0 = false)
    (hrun : mainRun env cfg (fuel + 1) = some (tr, code)) :
    code = 0 ∧ Event.errorMsg "Error starting exposure" ∈ tr ∧ countClose tr = 1 := by
  simp only [mainRun, if_neg h1, h2, h3, h4, Bool.true_eq_false, if_false,
    captureLoop, iterationStep, initCounters, h5, if_true, h6, if_true] at hrun
  simp only [Option.some.injEq, Prod.mk.injEq] at hrun
  obtain ⟨htr, hcode⟩ := hrun
  subst htr
  subst hcode
  refine ⟨rfl, by simp, ?_⟩
  simp [countClose, List.countP_cons, List.countP_nil, List.countP_append]

unseal Rat.mul Rat.inv Rat.add in
/-- Witness for C4: concrete run where the first trigger fails. -/
theorem start_failure_reported_break_release_exit_zero_witness :
    (0 : Int) = 0
    ∧ Event.errorMsg "Error starting exposure" ∈
        [Event.getPropertyCall true, Event.openCamera true, Event.initCamera true,
         Event.setROIFormat, Event.setControl ControlKind.exposure 1000000,
         Event.setControl ControlKind.gain 100, Event.startExposure false,
         Event.errorMsg "Error starting exposure", Event.closeCamera]
    ∧ countClose
        [Event.getPropertyCall true, Event.openCamera true, Event.initCamera true,
         Event.setROIFormat, Event.setControl ControlKind.exposure 1000000,
         Event.setControl ControlKind.gain 100, Event.startExposure false,
         Event.errorMsg "Error starting exposure", Event.closeCamera] = 1 :=
  start_failure_reported_break_release_exit_zero envStartFail defaultConfig 0 _ _
    (by decide) rfl rfl rfl rfl rfl (by decide)

/-- C5: a completed run exits with code 1 when no device is found, the
property query fails, or open/init fails — in each case an error is
printed and no loop iteration (no exposure trigger) ever happens — and it
exits with code 0 whenever startup succeeded, however the loop ended
(including signal-triggered shutdown). -/
theorem exit_code_policy
    (env : Env) (cfg : Config) (fuel : Nat) (tr : List Event) (code : Int)
    (h : mainRun env cfg fuel = some (tr, code)) :
    ((env.numCameras < 1 ∨ env.propOk = false ∨ env.openOk = false ∨ env.initOk = false) →
       code = 1 ∧ (∃ m, Event.errorMsg m ∈ tr) ∧ ∀ b, Event.startExposure b ∉ tr)
    ∧ ((1 ≤ env.numCameras ∧ env.propOk = true ∧ env.openOk = true ∧ env.initOk = true) →
       code = 0) := by
  simp only [mainRun] at h
  split at h
  · next hlt =>
    simp only [Option.some.injEq, Prod.mk.injEq] at h
    obtain ⟨htr, hcode⟩ := h
    subst htr; subst hcode
    constructor
    · intro _
      exact ⟨rfl, ⟨"No cameras connected!", by simp⟩, by simp⟩
    · rintro ⟨hn, -, -, -⟩
      omega
  · next hge =>
    split at h
    · next hprop =>
      simp only [Option.some.injEq, Prod.mk.injEq] at h
      obtain ⟨htr, hcode⟩ := h
      subst htr; subst hcode
      constructor
      · intro _
        exact ⟨rfl, ⟨"Error retrieving camera properties!", by simp⟩, by simp⟩
      · rintro ⟨-, hp, -, -⟩
        rw [hp] at hprop
        exact absurd hprop (by simp)
    · next hprop =>
      split at h
      · next hopen =>
        simp only [Option.some.injEq, Prod.mk.injEq] at h
        obtain ⟨htr, hcode⟩ := h
        subst htr; subst hcode
        constructor
        · intro _
          exact ⟨rfl, ⟨"Error initializing camera", by simp⟩, by simp⟩
        · rintro ⟨-, -, ho, -⟩
          rw [ho] at hopen
          exact absurd hopen (by simp)
      · next hopen =>
        split at h
        · next hinit =>
          simp only [Option.some.injEq, Prod.mk.injEq] at h
          obtain ⟨htr, hcode⟩ := h
          subst htr; subst hcode
          constructor
          · intro _
            exact ⟨rfl, ⟨"Error initializing camera", by simp⟩, by simp⟩
          · rintro ⟨-, -, -, hi⟩
            rw [hi] at hinit
            exact absurd hinit (by simp)
        · next hinit =>
          split at h
          · next evs c₂ hcl =>
            simp only [Option.some.injEq, Prod.mk.injEq] at h
            obtain ⟨htr, hcode⟩ := h
            subst htr; subst hcode
            refine ⟨fun hbad => ?_, fun _ => rfl⟩
            rcases hbad with hbad | hbad | hbad | hbad
            · exact absurd hbad hge
            · exact absurd hbad hprop
            · exact absurd hbad hopen
            · exact absurd hbad hinit
          · exact absurd h (by simp)

/-- Witness for C5: the zero-camera scenario exits 1 with an error printed
and no exposure ever triggered. -/
theorem exit_code_policy_witness :
    ((envNoCameras.numCameras < 1 ∨ envNoCameras.propOk = false ∨
        envNoCameras.openOk = false ∨ envNoCameras.initOk = false) →
      (1 : Int) = 1 ∧ (∃ m, Event.errorMsg m ∈ [Event.errorMsg "No cameras connected!"])
        ∧ ∀ b, Event.startExposure b ∉ [Event.errorMsg "No cameras connected!"])
    ∧ ((1 ≤ envNoCameras.numCameras ∧ envNoCameras.propOk = true ∧
        envNoCameras.openOk = true ∧ envNoCameras.initOk = true) → (1 : Int) = 0) :=
  exit_code_policy envNoCameras defaultConfig 1 _ _ (by decide)

/-- Amended C2: on every completed run in which both `ASIOpenCamera` and
`ASIInitCamera` succeeded, the device is released exactly once — including
the mid-run trigger-failure break path.  (On the open-success/init-failure
path the device is, contrary to the original claim, never released: see the
counterexample.) -/
theorem device_released_once_after_full_init
    (env : Env) (cfg : Config) (fuel : Nat) (tr : List Event) (code : Int)
    (h1 : ¬ env.numCameras < 1) (h2 : env.propOk = true)
    (h3 : env.openOk = true) (h4 : env.initOk = true)
    (hrun : mainRun env cfg fuel = some (tr, code)) :
    countClose tr = 1 := by
  simp only [mainRun, if_neg h1, h2, h3, h4, Bool.true_eq_false, if_false] at hrun
  split at hrun
  · next evs c₂ hcl =>
    simp only [Option.some.injEq, Prod.mk.injEq] at hrun
    obtain ⟨htr, _⟩ := hrun
    subst htr
    have hz : evs.countP (fun e => decide (e = Event.closeCamera)) = 0 := by
      rw [List.countP_eq_zero]
      intro e he
      have := (captureLoop_events env cfg _ fuel initCounters evs c₂ hcl e he).1
      simpa using this
    simp [countClose, List.countP_append, List.countP_cons, hz]
  · exact absurd hrun (by simp)

unseal Rat.mul Rat.inv Rat.add in
/-- Witness for amended C2: a full capture run closes the camera once. -/
theorem device_released_once_after_full_init_witness :
    countClose
      [Event.getPropertyCall true, Event.openCamera true, Event.initCamera true,
       Event.setROIFormat, Event.setControl ControlKind.exposure 1000000,
       Event.setControl ControlKind.gain 100, Event.startExposure true,
       Event.pollStatus ExpStatus.success, Event.pollSleep, Event.fetchFrame true,
       Event.openFile "./exposure-20251011-143059-007.bin" true,
       Event.writeFile "./exposure-20251011-143059-007.bin" 24,
       Event.closeCamera] = 1 :=
  device_released_once_after_full_init envAllOk defaultConfig 3 _ 0
    (by decide) rfl rfl rfl (by decide)

/-- C2 counterexample: on the path where `ASIOpenCamera` succeeds but
`ASIInitCamera` fails, the run reaches a successful open yet performs no
`ASICloseCamera` at all — the device is not released exactly once. -/
theorem device_release_claim_counterexample :
    mainRun envInitFail defaultConfig 1 = some (initFailTrace, 1)
    ∧ Event.openCamera true ∈ initFailTrace
    ∧ countClose initFailTrace = 0 := by
  refine ⟨by decide, by decide, by decide⟩

/-- C6: every `writeFile` in a completed run carries exactly
`width * height * bytes_per_pixel` bytes, with `bytes_per_pixel` 2 when the
device bit depth exceeds 8 and 1 otherwise.  In the model a write is the
full buffer or nothing — an iteration abandoned at the status, fetch or
open stage emits no `writeFile` at all — so no partial-size file exists. -/
theorem written_artifact_size_exact
    (env : Env) (cfg : Config) (fuel : Nat) (tr : List Event) (code : Int)
    (p : String) (n : Nat)
    (h : mainRun env cfg fuel = some (tr, code))
    (hw : Event.writeFile p n ∈ tr) :
    n = env.info.MaxWidth * env.info.MaxHeight *
      (if 8 < env.info.BitDepth then 2 else 1) := by
  simp only [mainRun] at h
  split at h
  · simp only [Option.some.injEq, Prod.mk.injEq] at h
    obtain ⟨htr, _⟩ := h
    subst htr
    simp at hw
  · split at h
    · simp only [Option.some.injEq, Prod.mk.injEq] at h
      obtain ⟨htr, _⟩ := h
      subst htr
      simp at hw
    · split at h
      · simp only [Option.some.injEq, Prod.mk.injEq] at h
        obtain ⟨htr, _⟩ := h
        subst htr
        simp at hw
      · split at h
        · simp only [Option.some.injEq, Prod.mk.injEq] at h
          obtain ⟨htr, _⟩ := h
          subst htr
          simp at hw
        · split at h
          · next evs c₂ hcl =>
            simp only [Option.some.injEq, Prod.mk.injEq] at h
            obtain ⟨htr, _⟩ := h
            subst htr
            simp only [List.mem_append, List.mem_cons, List.mem_singleton] at hw
            rcases hw with (hw | hw) | hw
            · simp at hw
            · exact (captureLoop_events env cfg _ fuel initCounters evs c₂ hcl _ hw).2
                p n rfl
            · simp at hw
          · exact absurd h (by simp)

unseal Rat.mul Rat.inv Rat.add in
/-- Witness for C6: the 4x3, 16-bit witness device writes exactly
24 = 4 * 3 * 2 bytes. -/
theorem written_artifact_size_exact_witness :
    (24 : Nat) = envAllOk.info.MaxWidth * envAllOk.info.MaxHeight *
      (if 8 < envAllOk.info.BitDepth then 2 else 1) :=
  written_artifact_size_exact envAllOk defaultConfig 3
    [Event.getPropertyCall true, Event.openCamera true, Event.initCamera true,
     Event.setROIFormat, Event.setControl ControlKind.exposure 1000000,
     Event.setControl ControlKind.gain 100, Event.startExposure true,
     Event.pollStatus ExpStatus.success, Event.pollSleep, Event.fetchFrame true,
     Event.openFile "./exposure-20251011-143059-007.bin" true,
     Event.writeFile "./exposure-20251011-143059-007.bin" 24,
     Event.closeCamera] 0
    "./exposure-20251011-143059-007.bin" 24 (by decide) (by decide)

/-- Pace/write relationship inside the loop body tail: a pacing sleep
implies a persisted frame, and a persisted frame with positive interval and
no shutdown request implies a pacing sleep. -/
lemma afterPoll_pace_write (env : Env) (cfg : Config) (imgSize fuel : Nat)
    (st : ExpStatus) (c : Counters) (r : IterResult)
    (h : afterPoll env cfg imgSize fuel st c = some r) :
    (Event.paceSleep ∈ r.events → ∃ p n, Event.writeFile p n ∈ r.events)
    ∧ ((∃ p n, Event.writeFile p n ∈ r.events) → 0 < cfg.interval_seconds →
        (∀ k, env.flag k = true) → Event.paceSleep ∈ r.events) := by
  simp only [afterPoll] at h
  split at h
  · simp only [Option.some.injEq] at h
    subst h
    exact ⟨fun hp => absurd hp (by simp), fun ⟨p, n, hw⟩ => absurd hw (by simp)⟩
  · split at h
    · simp only [Option.some.injEq] at h
      subst h
      exact ⟨fun hp => absurd hp (by simp), fun ⟨p, n, hw⟩ => absurd hw (by simp)⟩
    · split at h
      · simp only [Option.some.injEq] at h
        subst h
        exact ⟨fun hp => absurd hp (by simp), fun ⟨p, n, hw⟩ => absurd hw (by simp)⟩
      · split at h
        · simp only [Option.some.injEq] at h
          subst h
          exact ⟨fun hp => absurd hp (by simp), fun ⟨p, n, hw⟩ => absurd hw (by simp)⟩
        · split at h
          · next pevs c₅ hrec =>
            simp only [Option.some.injEq] at h
            subst h
            constructor
            · intro _
              refine ⟨cfg.output_dir ++ "/" ++
                make_filename_from_time (env.times c.nTime).1 (env.times c.nTime).2,
                imgSize, ?_⟩
              simp
            · intro _ hi hflag
              have hp := paceLoop_emits env cfg.interval_seconds fuel _ pevs c₅ hrec hi
                (hflag _)
              simp [hp]
          · exact absurd h (by simp)

/-- Amended C1: the Pacing Controller's wait runs only after an iteration
that persisted a frame — a loop body execution emits a `paceSleep` only if
it also emitted a `writeFile`, and whenever it emitted a `writeFile` (with
a positive configured interval and the Shutdown Flag never requested) it
emits at least one `paceSleep` before control returns to trigger the next
exposure.  Iterations abandoned at the status, fetch or destination-open
stage return to the trigger with no pacing wait, contrary to the original
claim (see the counterexample). -/
theorem pacing_only_after_persisted_frame
    (env : Env) (cfg : Config) (imgSize fuel : Nat) (c : Counters) (r : IterResult)
    (h : iterationStep env cfg imgSize fuel c = some r) :
    (Event.paceSleep ∈ r.events → ∃ p n, Event.writeFile p n ∈ r.events)
    ∧ ((∃ p n, Event.writeFile p n ∈ r.events) → 0 < cfg.interval_seconds →
        (∀ k, env.flag k = true) → Event.paceSleep ∈ r.events) := by
  simp only [iterationStep] at h
  split at h
  · simp only [Option.some.injEq] at h
    subst h
    exact ⟨fun hp => absurd hp (by simp), fun ⟨p, n, hw⟩ => absurd hw (by simp)⟩
  · cases hpoll : pollLoop env fuel { c with nStart := c.nStart + 1 } with
    | none => rw [hpoll] at h; simp at h
    | some q =>
      obtain ⟨pevs, st, c₂⟩ := q
      rw [hpoll] at h
      simp only at h
      cases hap : afterPoll env cfg imgSize fuel st c₂ with
      | none => rw [hap] at h; simp at h
      | some r' =>
        rw [hap] at h
        simp only [Option.some.injEq] at h
        subst h
        obtain ⟨hap1, hap2⟩ := afterPoll_pace_write env cfg imgSize fuel st c₂ r' hap
        constructor
        · intro hp
          have hp' : Event.paceSleep = Event.startExposure true ∨
              Event.paceSleep ∈ pevs ∨ Event.paceSleep ∈ r'.events := by simpa using hp
          rcases hp' with hp' | hp' | hp'
          · exact absurd hp' (by simp)
          · rcases pollLoop_events env fuel _ _ _ _ hpoll _ hp' with h' | ⟨s, h'⟩ <;>
              simp at h'
          · obtain ⟨p, n, hw⟩ := hap1 hp'
            exact ⟨p, n, by simp [hw]⟩
        · rintro ⟨p, n, hw⟩ hi hflag
          have hw' : Event.writeFile p n = Event.startExposure true ∨
              Event.writeFile p n ∈ pevs ∨ Event.writeFile p n ∈ r'.events := by
            simpa using hw
          rcases hw' with hw' | hw' | hw'
          · exact absurd hw' (by simp)
          · rcases pollLoop_events env fuel _ _ _ _ hpoll _ hw' with h' | ⟨s, h'⟩ <;>
              simp at h'
          · have := hap2 ⟨p, n, hw'⟩ hi hflag
            simp [this]

unseal Rat.mul Rat.inv Rat.add in
/-- Witness for amended C1: with a 1/5 s interval and no shutdown request,
the persisting iteration emits pacing sleeps. -/
theorem pacing_only_after_persisted_frame_witness :
    iterationStep envNoShutdown cfgShort 24 5 ⟨0, 0, 0, 0, 0, 1⟩ =
      some ⟨[Event.startExposure true, Event.pollStatus ExpStatus.success, Event.pollSleep,
        Event.fetchFrame true, Event.openFile "./exposure-20251011-143059-007.bin" true,
        Event.writeFile "./exposure-20251011-143059-007.bin" 24,
        Event.paceSleep, Event.paceSleep], IterOutcome.cont, ⟨1, 1, 1, 1, 1, 4⟩⟩
    ∧ Event.paceSleep ∈
        [Event.startExposure true, Event.pollStatus ExpStatus.success, Event.pollSleep,
         Event.fetchFrame true, Event.openFile "./exposure-20251011-143059-007.bin" true,
         Event.writeFile "./exposure-20251011-143059-007.bin" 24,
         Event.paceSleep, Event.paceSleep] :=
  ⟨by decide,
   (pacing_only_after_persisted_frame envNoShutdown cfgShort 24 5 ⟨0, 0, 0, 0, 0, 1⟩
      ⟨[Event.startExposure true, Event.pollStatus ExpStatus.success, Event.pollSleep,
        Event.fetchFrame true, Event.openFile "./exposure-20251011-143059-007.bin" true,
        Event.writeFile "./exposure-20251011-143059-007.bin" 24,
        Event.paceSleep, Event.paceSleep], IterOutcome.cont, ⟨1, 1, 1, 1, 1, 4⟩⟩
      (by decide)).2
     ⟨"./exposure-20251011-143059-007.bin", 24, by decide⟩ (by decide) (fun _ => rfl)⟩

unseal Rat.mul Rat.inv Rat.add in
/-- C1 counterexample: in the concrete run `mainRun envPollFailed`, the
first iteration is abandoned (exposure status `failed`) and the next
exposure is triggered with no pacing sleep in between, so the claim that
the pacing wait occurs after every completed iteration — persisted or
abandoned — before the next trigger is false on the code. -/
theorem pacing_claim_counterexample :
    mainRun envPollFailed defaultConfig 10 = some (abandonedIterTrace, 0)
    ∧ pacedBetweenStarts abandonedIterTrace = false :=
  ⟨by decide, by decide⟩

/-- The filename splits as stem, millisecond field, extension. -/
lemma make_filename_stem (t : Tm) (usec : Nat) :
    make_filename_from_time t usec = filenameStem t ++ pad3 (usec / 1000) ++ ".bin" := rfl

/-- The function `pad2` renders every value below 100 as exactly two decimal digits. -/
lemma pad2_spec : ∀ n, n < 100 →
    (pad2 n).length = 2 ∧ ((pad2 n).data.all Char.isDigit) = true := by decide

/-- The function `pad3` renders every value below 1000 as exactly three decimal digits,
and `decDigits` inverts it. -/
lemma pad3_spec : ∀ n, n < 1000 →
    (pad3 n).length = 3 ∧ ((pad3 n).data.all Char.isDigit) = true ∧
    decDigits (pad3 n) = n := by decide

/-- Years 1900-2899 render as exactly four decimal digits. -/
lemma reprYear_spec : ∀ y, y < 1000 →
    (Nat.repr (1900 + y)).length = 4 ∧
    ((Nat.repr (1900 + y)).data.all Char.isDigit) = true := by decide

/-- Right cancellation for string append. -/
lemma string_append_right_cancel (x y e : String) (h : x ++ e = y ++ e) : x = y := by
  apply String.ext
  have hd := congrArg String.data h
  simp only [String.data_append] at hd
  exact List.append_cancel_right hd

/-- Left cancellation for string append. -/
lemma string_append_left_cancel (p x y : String) (h : p ++ x = p ++ y) : x = y := by
  apply String.ext
  have hd := congrArg String.data h
  simp only [String.data_append] at hd
  exact List.append_cancel_left hd

/-- The function `pad3` is injective below 1000. -/
lemma pad3_inj (a b : Nat) (ha : a < 1000) (hb : b < 1000) (h : pad3 a = pad3 b) :
    a = b := by
  have h1 := (pad3_spec a ha).2.2
  have h2 := (pad3_spec b hb).2.2
  rw [h] at h1
  exact h1.symm.trans h2

/-- C7: for any valid sampled timestamp (and a year in 1900-2899 so the
year field is four digits), the generated name has the shape
`exposure-YYYYMMDD-HHMMSS-mmm.bin` with month, day, hour, minute and second
zero-padded to two digits and milliseconds to three; the generator is a
pure function of the sampled timestamp; and two timestamps in the same
calendar second with different milliseconds give distinct names. -/
theorem filename_format_purity_distinctness
    (t : Tm) (usec : Nat)
    (hyear : t.tm_year < 1000) (hmon : t.tm_mon < 12) (hday : t.tm_mday ≤ 31)
    (hhour : t.tm_hour < 24) (hmin : t.tm_min < 60) (hsec : t.tm_sec < 60)
    (husec : usec < 1000000) :
    (∃ y mo d hh mi s ms : String,
      make_filename_from_time t usec =
        "exposure-" ++ y ++ mo ++ d ++ "-" ++ hh ++ mi ++ s ++ "-" ++ ms ++ ".bin"
      ∧ y.length = 4 ∧ mo.length = 2 ∧ d.length = 2 ∧ hh.length = 2
      ∧ mi.length = 2 ∧ s.length = 2 ∧ ms.length = 3
      ∧ (y.data.all Char.isDigit) = true ∧ (mo.data.all Char.isDigit) = true
      ∧ (d.data.all Char.isDigit) = true ∧ (hh.data.all Char.isDigit) = true
      ∧ (mi.data.all Char.isDigit) = true ∧ (s.data.all Char.isDigit) = true
      ∧ (ms.data.all Char.isDigit) = true)
    ∧ (∀ t2 u2, t = t2 → usec = u2 →
        make_filename_from_time t usec = make_filename_from_time t2 u2)
    ∧ (∀ u2, u2 < 1000000 → usec / 1000 ≠ u2 / 1000 →
        make_filename_from_time t usec ≠ make_filename_from_time t u2) := by
  refine ⟨⟨Nat.repr (1900 + t.tm_year), pad2 (1 + t.tm_mon), pad2 t.tm_mday,
    pad2 t.tm_hour, pad2 t.tm_min, pad2 t.tm_sec, pad3 (usec / 1000),
    rfl, (reprYear_spec t.tm_year hyear).1, (pad2_spec (1 + t.tm_mon) (by omega)).1,
    (pad2_spec t.tm_mday (by omega)).1, (pad2_spec t.tm_hour (by omega)).1,
    (pad2_spec t.tm_min (by omega)).1, (pad2_spec t.tm_sec (by omega)).1,
    (pad3_spec (usec / 1000) (by omega)).1,
    (reprYear_spec t.tm_year hyear).2, (pad2_spec (1 + t.tm_mon) (by omega)).2,
    (pad2_spec t.tm_mday (by omega)).2, (pad2_spec t.tm_hour (by omega)).2,
    (pad2_spec t.tm_min (by omega)).2, (pad2_spec t.tm_sec (by omega)).2,
    (pad3_spec (usec / 1000) (by omega)).2.1⟩, ?_, ?_⟩
  · rintro t2 u2 rfl rfl
    rfl
  · intro u2 hu2 hne heq
    rw [make_filename_stem, make_filename_stem] at heq
    have h1 : filenameStem t ++ pad3 (usec / 1000) = filenameStem t ++ pad3 (u2 / 1000) :=
      string_append_right_cancel _ _ _ heq
    have h2 : pad3 (usec / 1000) = pad3 (u2 / 1000) :=
      string_append_left_cancel _ _ _ h1
    exact hne (pad3_inj _ _ (by omega) (by omega) h2)

/-- Witness for C7: 2025-10-11 14:30:59 at 7999 us versus 8999 us in the
same second give distinct filenames. -/
theorem filename_format_purity_distinctness_witness :
    make_filename_from_time ⟨125, 9, 11, 14, 30, 59⟩ 7999 ≠
      make_filename_from_time ⟨125, 9, 11, 14, 30, 59⟩ 8999 :=
  (filename_format_purity_distinctness ⟨125, 9, 11, 14, 30, 59⟩ 7999 (by decide)
      (by decide) (by decide) (by decide) (by decide) (by decide) (by decide)).2.2
    8999 (by decide) (by decide)

end CaptureContinuous
